import Mathlib

/-!
Verification of the Clockstar v2 firmware mini-game session core.

The embedding below translates the two game screens of the repository:
`PongGame` (main/src/Screens/PongGame.cpp / .h) and `BirdDodger`
(main/src/Screens/BirdDodger.h, header + implementation).

Modelling conventions:
* C++ `float` arithmetic is modelled with exact rationals (`ℚ`); the
  constants `0.5f`, `1.5f`, ... become the corresponding rationals.
* `esp_random()` is modelled by a natural-number parameter `r`; the C
  expression `esp_random() % 90 - 45` is computed in uint32 arithmetic
  (see `Pong.pongAngleBits`).
* `cos`/`sin` applied to the (degree-valued) random angle are abstracted
  by parameters `cosd sind : ℕ → ℚ` (argument: the uint32 degree value).
* The LVGL / audio / sleep / threading collaborators are external per the
  spec and have no effect on the session state modelled here; sound
  playback and LVGL object writes are omitted.
-/

namespace Clockstar

/-- Modelled from the spec: the exponential-moving-average filter of
`Util/EMA.h`, which is not part of the excerpt.  Per spec §4.1 it owns
`current` and a fixed smoothing coefficient `strength`. -/
structure EMA where
  current : ℚ
  strength : ℚ
deriving DecidableEq

/-- Modelled from the spec: `reset(sample)` sets `current = sample`. -/
def EMA.reset (e : EMA) (sample : ℚ) : EMA :=
  { e with current := sample }

/-- Modelled from the spec: `update(sample)` applies
`current = current*(1-strength) + sample*strength` and returns the new
filter state (the C++ function returns the new `current`). -/
def EMA.update (e : EMA) (sample : ℚ) : EMA :=
  { e with current := e.current * (1 - e.strength) + sample * e.strength }

/-- Input buttons relevant to the game screens (`Input::Button`). -/
inductive Button where
  | Alt
  | Select
  | Up
  | Down
deriving DecidableEq

/-- Input actions (`Input::Data::Press` / `Release`). -/
inductive Action where
  | Press
  | Release
deriving DecidableEq

/-- One input event as delivered by the event queue (`Input::Data`). -/
structure InEvent where
  btn : Button
  action : Action
deriving DecidableEq

namespace Pong

/-! Constants of `PongGame.h`. -/

def SCREEN_WIDTH : ℚ := 128
def SCREEN_HEIGHT : ℚ := 128
def BALL_SIZE : ℚ := 4
def PADDLE_WIDTH : ℚ := 4
def PADDLE_HEIGHT : ℚ := 24
def BALL_SPEED : ℚ := 3 / 2
def PADDLE_SPEED : ℚ := 1 / 50
def filterStrength : ℚ := 3 / 20

/-- The anonymous `ballState` struct of `PongGame.h`. -/
structure BallState where
  x : ℚ
  y : ℚ
  vx : ℚ
  vy : ℚ
deriving DecidableEq

/-- The mutable session state of `PongGame`: ball, paddle position
(normalized 0–1), score, game-over flag and the IMU pitch filter. -/
structure PongState where
  ballState : BallState
  paddleY : ℚ
  score : ℤ
  gameOver : Bool
  pitchFilter : EMA
deriving DecidableEq

/-- The uint32 value of the C expression `esp_random() % 90 - 45` in
`PongGame::resetBall`: `esp_random()` returns `uint32_t`, so the
subtraction is performed modulo `2 ^ 32` (values of `r % 90` below 45
wrap around to huge numbers). -/
def pongAngleBits (r : ℕ) : ℕ :=
  (r % 90 + (2 ^ 32 - 45)) % 2 ^ 32

/-- `PongGame::resetBall`: center the ball and give it speed `BALL_SPEED`
in direction of the computed angle.  `cosd`/`sind` abstract the float
cosine/sine of the angle value (in degrees) produced by the uint32
arithmetic of `pongAngleBits`. -/
def resetBall (cosd sind : ℕ → ℚ) (r : ℕ) : BallState :=
  { x := SCREEN_WIDTH / 2
    y := SCREEN_HEIGHT / 2
    vx := BALL_SPEED * cosd (pongAngleBits r)
    vy := BALL_SPEED * sind (pongAngleBits r) }

/-- Tags recording which collision branch of `PongGame::checkCollisions`
fired during one call (in source order): top/bottom wall reflection,
paddle hit, miss (game over), far (right) wall reflection. -/
inductive Res where
  | wallTB
  | paddleHit
  | miss
  | wallFar
deriving DecidableEq

/-- First block of `PongGame::checkCollisions`: top/bottom walls invert
`vy` (no position change). -/
def stepWalls (s : PongState) : PongState × List Res :=
  if s.ballState.y ≤ 0 ∨ SCREEN_HEIGHT - BALL_SIZE ≤ s.ballState.y then
    ({ s with ballState := { s.ballState with vy := -s.ballState.vy } }, [Res.wallTB])
  else (s, [])

/-- Second block of `PongGame::checkCollisions`: the left (paddle-side)
wall.  A hit reflects `vx`, clamps `x` to `PADDLE_WIDTH`, adds spin to
`vy` from the hit position and increments the score; a miss (`x ≤ 0`
outside the paddle extent) sets the game-over flag. -/
def stepPaddle (s : PongState) : PongState × List Res :=
  if s.ballState.x ≤ PADDLE_WIDTH then
    if s.paddleY * (SCREEN_HEIGHT - PADDLE_HEIGHT) ≤ s.ballState.y ∧
        s.ballState.y ≤ s.paddleY * (SCREEN_HEIGHT - PADDLE_HEIGHT) + PADDLE_HEIGHT then
      ({ s with
          ballState := { s.ballState with
            vx := -s.ballState.vx
            x := PADDLE_WIDTH
            vy := s.ballState.vy +
              ((s.ballState.y - s.paddleY * (SCREEN_HEIGHT - PADDLE_HEIGHT)) / PADDLE_HEIGHT
                - 1 / 2) * (1 / 2) }
          score := s.score + 1 }, [Res.paddleHit])
    else if s.ballState.x ≤ 0 then
      ({ s with gameOver := true }, [Res.miss])
    else (s, [])
  else (s, [])

/-- Third block of `PongGame::checkCollisions`: the right wall reflects
`vx` and clamps `x` to `SCREEN_WIDTH - BALL_SIZE`. -/
def stepFar (s : PongState) : PongState × List Res :=
  if SCREEN_WIDTH - BALL_SIZE ≤ s.ballState.x then
    ({ s with ballState := { s.ballState with
        vx := -s.ballState.vx
        x := SCREEN_WIDTH - BALL_SIZE } }, [Res.wallFar])
  else (s, [])

/-- `PongGame::checkCollisions`, instrumented with the list of collision
resolutions applied, in the order the source applies them. -/
def checkCollisionsEv (s : PongState) : PongState × List Res :=
  ((stepFar (stepPaddle (stepWalls s).1).1).1,
    (stepWalls s).2 ++ (stepPaddle (stepWalls s).1).2 ++ (stepFar (stepPaddle (stepWalls s).1).1).2)

/-- `PongGame::checkCollisions` (state effect only). -/
def checkCollisions (s : PongState) : PongState :=
  (checkCollisionsEv s).1

/-- Ball integration step at the top of `PongGame::updateGame`. -/
def moveBall (s : PongState) : PongState :=
  { s with ballState := { s.ballState with
      x := s.ballState.x + s.ballState.vx
      y := s.ballState.y + s.ballState.vy } }

/-- Paddle update from the filtered IMU pitch at the bottom of
`PongGame::updateGame`: EMA update, map `±0.3 g` to `[0,1]` with
clamping, then exponential approach with rate `PADDLE_SPEED`. -/
def tickPaddle (s : PongState) (a : ℚ) : PongState :=
  { s with
    pitchFilter := s.pitchFilter.update a
    paddleY :=
      min (max (s.paddleY +
        (min (max (((s.pitchFilter.update a).current + 3 / 10) / (3 / 5)) 0) 1 - s.paddleY)
          * PADDLE_SPEED) 0) 1 }

/-- `PongGame::updateGame`: one simulation tick with raw IMU sample `a`
(`sample.accelY`).  Returns immediately when the game is over. -/
def updateGame (s : PongState) (a : ℚ) : PongState :=
  if s.gameOver then s
  else tickPaddle (checkCollisions (moveBall s)) a

/-- `PongGame::handleInput`: processes at most one queued event.  `Alt`
requests a screen transition (session state untouched); `Select` while
game over restarts: score to 0, flag cleared, ball re-randomized via
`resetBall` with fresh randomness `r`. -/
def handleInput (cosd sind : ℕ → ℚ) (r : ℕ) (s : PongState) (ev : Option InEvent) :
    PongState :=
  match ev with
  | none => s
  | some e =>
    if e.action = Action.Press then
      if e.btn = Button.Alt then s
      else if e.btn = Button.Select ∧ s.gameOver = true then
        { s with score := 0, gameOver := false, ballState := resetBall cosd sind r }
      else s
    else s

/-- The filter-relevant effect of `PongGame::onStart`: the pitch filter
is reset to the first live IMU sample.  (Sleep policy, event wiring and
thread start act on external collaborators only.) -/
def onStart (s : PongState) (firstSample : ℚ) : PongState :=
  { s with pitchFilter := s.pitchFilter.reset firstSample }

/-- Construction-time session state of `PongGame::PongGame`: score 0,
not game over, paddle at 0.5, ball freshly reset.  The EMA's initial
`current` is the zeroed default mentioned by the spec (§4.1). -/
def mkPongState (cosd sind : ℕ → ℚ) (r : ℕ) : PongState :=
  { ballState := resetBall cosd sind r
    paddleY := 1 / 2
    score := 0
    gameOver := false
    pitchFilter := { current := 0, strength := filterStrength } }

end Pong

namespace BD

/-! Constants of `BirdDodger.h`. -/

def MAX_BIRDS : ℕ := 5
def SCREEN_WIDTH : ℚ := 128
def SCREEN_HEIGHT : ℚ := 128
def PLANE_SIZE : ℚ := 8
def BIRD_SIZE : ℚ := 6
def PLANE_Y : ℚ := 100
def INITIAL_SPEED : ℚ := 1
def SPEED_INCREMENT : ℚ := 1 / 10
def MAX_SPEED : ℚ := 3
def PLANE_SPEED : ℚ := 3 / 100
def SPAWN_INTERVAL : ℤ := 60
def filterStrength : ℚ := 3 / 20

/-- One slot of the `birdState` pool (`BirdDodger::Bird`). -/
structure Bird where
  x : ℚ
  y : ℚ
  active : Bool
deriving DecidableEq

/-- The mutable session state of `BirdDodger`: plane position
(normalized 0–1), the fixed pool of bird slots, score, the
last-difficulty-adjusted score, game-over flag, scroll speed (the
difficulty scalar), frame counter and the IMU roll filter. -/
structure BDState where
  planeX : ℚ
  birdState : List Bird
  score : ℤ
  lastDifficultyScore : ℤ
  gameOver : Bool
  scrollSpeed : ℚ
  frameCounter : ℤ
  rollFilter : EMA
deriving DecidableEq

/-- Number of `active = true` slots in the pool. -/
def countActive (bs : List Bird) : ℕ :=
  bs.countP (fun b => b.active)

/-- `BirdDodger::spawnBird`: activate the first inactive slot (index
order) at a random x in `[0, SCREEN_WIDTH - BIRD_SIZE)` and the top
spawn edge `y = -BIRD_SIZE`; if every slot is active the request is
dropped. -/
def spawnList (bs : List Bird) (x0 : ℚ) : List Bird :=
  match bs with
  | [] => []
  | b :: rest =>
    if b.active then b :: spawnList rest x0
    else { x := x0, y := -BIRD_SIZE, active := true } :: rest

/-- Bird advance + reap loop of `BirdDodger::updateGame`: each active
bird moves down by `speed`; a bird whose new `y` exceeds
`SCREEN_HEIGHT` is deactivated and contributes one point.  Returns the
new pool and the total score gained. -/
def moveBirds (speed : ℚ) (bs : List Bird) : List Bird × ℤ :=
  match bs with
  | [] => ([], 0)
  | b :: rest =>
    let p := moveBirds speed rest
    if b.active then
      if SCREEN_HEIGHT < b.y + speed then
        ({ b with y := b.y + speed, active := false } :: p.1, p.2 + 1)
      else
        ({ b with y := b.y + speed } :: p.1, p.2)
    else (b :: p.1, p.2)

/-- AABB overlap test of `BirdDodger::checkCollisions` between the plane
(at pixel x `px`, fixed `PLANE_Y`) and one bird slot (only active slots
are tested). -/
def collideB (px : ℚ) (b : Bird) : Bool :=
  b.active && decide (px < b.x + BIRD_SIZE) && decide (b.x < px + PLANE_SIZE)
    && decide (PLANE_Y < b.y + BIRD_SIZE) && decide (b.y < PLANE_Y + PLANE_SIZE)

/-- `BirdDodger::checkCollisions`: when not already game over, any AABB
overlap between the plane and an active bird sets the game-over flag
(the `break` only skips further tests; the state effect is the same). -/
def checkCollisions (s : BDState) : BDState :=
  if s.gameOver then s
  else if s.birdState.any (collideB (s.planeX * (SCREEN_WIDTH - PLANE_SIZE))) then
    { s with gameOver := true }
  else s

/-- Difficulty block at the end of `BirdDodger::updateGame`: every 10
points, at most once per score value, raise `scrollSpeed` by
`SPEED_INCREMENT` capped at `MAX_SPEED`.  Returns the new speed and the
new `lastDifficultyScore`. -/
def difficultyStep (score last : ℤ) (speed : ℚ) : ℚ × ℤ :=
  if 0 < score ∧ score % 10 = 0 ∧ speed < MAX_SPEED then
    if score ≠ last then (min (speed + SPEED_INCREMENT) MAX_SPEED, score)
    else (speed, last)
  else (speed, last)

/-- First half of `BirdDodger::updateGame` (after the game-over guard):
frame counter increment, periodic spawn, bird movement/reaping with
scoring, then collision checks. -/
def tickCore (s : BDState) (r : ℕ) : BDState :=
  let fc := s.frameCounter + 1
  let birds0 :=
    if fc % SPAWN_INTERVAL = 0 then spawnList s.birdState ((r % 122 : ℕ) : ℚ)
    else s.birdState
  let p := moveBirds s.scrollSpeed birds0
  checkCollisions { s with frameCounter := fc, birdState := p.1, score := s.score + p.2 }

/-- Plane update from the filtered IMU roll in `BirdDodger::updateGame`:
EMA update, map `±0.3 g` to `[0,1]` with clamping, exponential approach
with rate `PLANE_SPEED`. -/
def tickPlane (s : BDState) (a : ℚ) : BDState :=
  { s with
    rollFilter := s.rollFilter.update a
    planeX :=
      min (max (s.planeX +
        (min (max (((s.rollFilter.update a).current + 3 / 10) / (3 / 5)) 0) 1 - s.planeX)
          * PLANE_SPEED) 0) 1 }

/-- Difficulty stage of `BirdDodger::updateGame` as a state update. -/
def tickDifficulty (s : BDState) : BDState :=
  { s with
    scrollSpeed := (difficultyStep s.score s.lastDifficultyScore s.scrollSpeed).1
    lastDifficultyScore := (difficultyStep s.score s.lastDifficultyScore s.scrollSpeed).2 }

/-- `BirdDodger::updateGame`: one simulation tick with raw IMU sample
`a` (`sample.accelX`) and spawn randomness `r`.  Returns immediately
when the game is over. -/
def updateGame (s : BDState) (a : ℚ) (r : ℕ) : BDState :=
  if s.gameOver then s
  else tickDifficulty (tickPlane (tickCore s r) a)

/-- `BirdDodger::handleInput`: `Alt` requests a screen transition;
`Select` while game over restarts: score and difficulty tracking reset,
speed back to `INITIAL_SPEED`, frame counter cleared and every pool slot
deactivated (slot coordinates are not touched). -/
def handleInput (s : BDState) (ev : Option InEvent) : BDState :=
  match ev with
  | none => s
  | some e =>
    if e.action = Action.Press then
      if e.btn = Button.Alt then s
      else if e.btn = Button.Select ∧ s.gameOver = true then
        { s with
          score := 0
          lastDifficultyScore := 0
          gameOver := false
          scrollSpeed := INITIAL_SPEED
          frameCounter := 0
          birdState := s.birdState.map (fun b => { b with active := false }) }
      else s
    else s

/-- The filter-relevant effect of `BirdDodger::onStart`: the roll filter
is reset to the first live IMU sample. -/
def onStart (s : BDState) (firstSample : ℚ) : BDState :=
  { s with rollFilter := s.rollFilter.reset firstSample }

/-- Construction-time bird slot of `BirdDodger::BirdDodger`. -/
def mkBird : Bird :=
  { x := 0, y := -BIRD_SIZE, active := false }

/-- Construction-time session state of `BirdDodger::BirdDodger`. -/
def mkBDState : BDState :=
  { planeX := 1 / 2
    birdState := List.replicate MAX_BIRDS mkBird
    score := 0
    lastDifficultyScore := 0
    gameOver := false
    scrollSpeed := INITIAL_SPEED
    frameCounter := 0
    rollFilter := { current := 0, strength := filterStrength } }

end BD

/-- Rank of a collision resolution in the fixed source order of
`PongGame::checkCollisions` (top/bottom walls, then the actor-side
wall's hit/miss branches, then the far wall). -/
def resIdx : Pong.Res → ℕ
  | Pong.Res.wallTB => 0
  | Pong.Res.paddleHit => 1
  | Pong.Res.miss => 2
  | Pong.Res.wallFar => 3

/-! ### Concrete states used by witnesses and counterexamples -/

def c1PongState : Pong.PongState :=
  { ballState := { x := 10, y := 20, vx := 3 / 2, vy := -1 }
    paddleY := 1 / 2
    score := 7
    gameOver := true
    pitchFilter := { current := 0, strength := Pong.filterStrength } }

def c1BDState : BD.BDState :=
  { planeX := 1 / 2
    birdState := [⟨5, 50, true⟩, ⟨0, -6, false⟩, ⟨0, -6, false⟩, ⟨0, -6, false⟩, ⟨0, -6, false⟩]
    score := 12
    lastDifficultyScore := 10
    gameOver := true
    scrollSpeed := 11 / 10
    frameCounter := 100
    rollFilter := { current := 0, strength := BD.filterStrength } }

def c2PongState : Pong.PongState :=
  { ballState := { x := -1, y := 10, vx := -3 / 2, vy := 0 }
    paddleY := 1 / 2
    score := 5
    gameOver := false
    pitchFilter := { current := 0, strength := Pong.filterStrength } }

def c2BDState : BD.BDState :=
  { planeX := 0
    birdState := [⟨0, 100, true⟩, ⟨0, -6, false⟩, ⟨0, -6, false⟩, ⟨0, -6, false⟩, ⟨0, -6, false⟩]
    score := 3
    lastDifficultyScore := 0
    gameOver := false
    scrollSpeed := 1
    frameCounter := 10
    rollFilter := { current := 0, strength := BD.filterStrength } }

def c4PongState : Pong.PongState :=
  { ballState := { x := 125, y := 0, vx := 3 / 2, vy := -2 }
    paddleY := 1 / 2
    score := 0
    gameOver := false
    pitchFilter := { current := 0, strength := Pong.filterStrength } }

def c5PongState : Pong.PongState :=
  { ballState := { x := 60, y := -1, vx := 1, vy := -2 }
    paddleY := 1 / 2
    score := 0
    gameOver := false
    pitchFilter := { current := 0, strength := Pong.filterStrength } }

def c5FarPongState : Pong.PongState :=
  { ballState := { x := 125, y := 60, vx := 2, vy := 1 }
    paddleY := 1 / 2
    score := 0
    gameOver := false
    pitchFilter := { current := 0, strength := Pong.filterStrength } }

def c6PongState : Pong.PongState :=
  { ballState := { x := 3, y := 60, vx := -3 / 2, vy := 0 }
    paddleY := 1 / 2
    score := 2
    gameOver := false
    pitchFilter := { current := 0, strength := Pong.filterStrength } }

def c7BDState : BD.BDState :=
  { planeX := 1 / 2
    birdState := [⟨5, 50, true⟩, ⟨0, -6, false⟩, ⟨0, -6, false⟩, ⟨0, -6, false⟩, ⟨0, -6, false⟩]
    score := 9
    lastDifficultyScore := 0
    gameOver := false
    scrollSpeed := 1
    frameCounter := 3
    rollFilter := { current := 0, strength := BD.filterStrength } }

def c7OverBDState : BD.BDState :=
  { planeX := 1 / 2
    birdState := [⟨5, 50, true⟩, ⟨0, -6, false⟩, ⟨0, -6, false⟩, ⟨0, -6, false⟩, ⟨0, -6, false⟩]
    score := 30
    lastDifficultyScore := 30
    gameOver := true
    scrollSpeed := 13 / 10
    frameCounter := 900
    rollFilter := { current := 0, strength := BD.filterStrength } }

def c8FullPool : List BD.Bird :=
  [⟨1, 10, true⟩, ⟨2, 20, true⟩, ⟨3, 30, true⟩, ⟨4, 40, true⟩, ⟨5, 50, true⟩]

def c8BDState : BD.BDState :=
  { planeX := 1 / 2
    birdState := c8FullPool
    score := 4
    lastDifficultyScore := 0
    gameOver := false
    scrollSpeed := 1
    frameCounter := 58
    rollFilter := { current := 0, strength := BD.filterStrength } }

def c9PongState : Pong.PongState :=
  { ballState := { x := -1, y := 10, vx := -3 / 2, vy := 0 }
    paddleY := 1 / 2
    score := 4
    gameOver := true
    pitchFilter := { current := 7, strength := Pong.filterStrength } }

def c10PongState : Pong.PongState :=
  { ballState := { x := -2, y := 30, vx := -3 / 2, vy := 1 }
    paddleY := 9 / 10
    score := 3
    gameOver := true
    pitchFilter := { current := 0, strength := Pong.filterStrength } }

def c10BDState : BD.BDState :=
  { planeX := 1 / 4
    birdState := [⟨5, 104, true⟩, ⟨0, -6, false⟩, ⟨0, -6, false⟩, ⟨0, -6, false⟩, ⟨0, -6, false⟩]
    score := 20
    lastDifficultyScore := 20
    gameOver := true
    scrollSpeed := 6 / 5
    frameCounter := 77
    rollFilter := { current := 0, strength := BD.filterStrength } }

/-! ### Helper lemmas about the Pong collision stages -/

@[simp]
theorem stepWalls_fst_ballState_x (s : Pong.PongState) :
    (Pong.stepWalls s).1.ballState.x = s.ballState.x := by
  unfold Pong.stepWalls; split <;> rfl

@[simp]
theorem stepWalls_fst_ballState_y (s : Pong.PongState) :
    (Pong.stepWalls s).1.ballState.y = s.ballState.y := by
  unfold Pong.stepWalls; split <;> rfl

@[simp]
theorem stepWalls_fst_ballState_vx (s : Pong.PongState) :
    (Pong.stepWalls s).1.ballState.vx = s.ballState.vx := by
  unfold Pong.stepWalls; split <;> rfl

@[simp]
theorem stepWalls_fst_paddleY (s : Pong.PongState) :
    (Pong.stepWalls s).1.paddleY = s.paddleY := by
  unfold Pong.stepWalls; split <;> rfl

@[simp]
theorem stepWalls_fst_score (s : Pong.PongState) :
    (Pong.stepWalls s).1.score = s.score := by
  unfold Pong.stepWalls; split <;> rfl

@[simp]
theorem stepWalls_fst_gameOver (s : Pong.PongState) :
    (Pong.stepWalls s).1.gameOver = s.gameOver := by
  unfold Pong.stepWalls; split <;> rfl

@[simp]
theorem stepWalls_fst_pitchFilter (s : Pong.PongState) :
    (Pong.stepWalls s).1.pitchFilter = s.pitchFilter := by
  unfold Pong.stepWalls; split <;> rfl

theorem stepWalls_of_not (s : Pong.PongState)
    (h : ¬(s.ballState.y ≤ 0 ∨ Pong.SCREEN_HEIGHT - Pong.BALL_SIZE ≤ s.ballState.y)) :
    Pong.stepWalls s = (s, []) := by
  unfold Pong.stepWalls; rw [if_neg h]

theorem stepWalls_of (s : Pong.PongState)
    (h : s.ballState.y ≤ 0 ∨ Pong.SCREEN_HEIGHT - Pong.BALL_SIZE ≤ s.ballState.y) :
    Pong.stepWalls s =
      ({ s with ballState := { s.ballState with vy := -s.ballState.vy } }, [Pong.Res.wallTB]) := by
  unfold Pong.stepWalls; rw [if_pos h]

theorem stepPaddle_hit (s : Pong.PongState)
    (hx : s.ballState.x ≤ Pong.PADDLE_WIDTH)
    (hin : s.paddleY * (Pong.SCREEN_HEIGHT - Pong.PADDLE_HEIGHT) ≤ s.ballState.y ∧
      s.ballState.y ≤ s.paddleY * (Pong.SCREEN_HEIGHT - Pong.PADDLE_HEIGHT) + Pong.PADDLE_HEIGHT) :
    Pong.stepPaddle s =
      ({ s with
          ballState := { s.ballState with
            vx := -s.ballState.vx
            x := Pong.PADDLE_WIDTH
            vy := s.ballState.vy +
              ((s.ballState.y - s.paddleY * (Pong.SCREEN_HEIGHT - Pong.PADDLE_HEIGHT)) /
                  Pong.PADDLE_HEIGHT - 1 / 2) * (1 / 2) }
          score := s.score + 1 }, [Pong.Res.paddleHit]) := by
  unfold Pong.stepPaddle; rw [if_pos hx, if_pos hin]

theorem stepPaddle_miss (s : Pong.PongState)
    (hx : s.ballState.x ≤ 0)
    (hout : ¬(s.paddleY * (Pong.SCREEN_HEIGHT - Pong.PADDLE_HEIGHT) ≤ s.ballState.y ∧
      s.ballState.y ≤ s.paddleY * (Pong.SCREEN_HEIGHT - Pong.PADDLE_HEIGHT) + Pong.PADDLE_HEIGHT)) :
    Pong.stepPaddle s = ({ s with gameOver := true }, [Pong.Res.miss]) := by
  have hx4 : s.ballState.x ≤ Pong.PADDLE_WIDTH := by
    unfold Pong.PADDLE_WIDTH; linarith
  unfold Pong.stepPaddle; rw [if_pos hx4, if_neg hout, if_pos hx]

theorem stepPaddle_of_far (s : Pong.PongState)
    (h : ¬ s.ballState.x ≤ Pong.PADDLE_WIDTH) :
    Pong.stepPaddle s = (s, []) := by
  unfold Pong.stepPaddle; rw [if_neg h]

theorem stepFar_of_lt (s : Pong.PongState)
    (h : ¬ Pong.SCREEN_WIDTH - Pong.BALL_SIZE ≤ s.ballState.x) :
    Pong.stepFar s = (s, []) := by
  unfold Pong.stepFar; rw [if_neg h]

theorem stepFar_of (s : Pong.PongState)
    (h : Pong.SCREEN_WIDTH - Pong.BALL_SIZE ≤ s.ballState.x) :
    Pong.stepFar s =
      ({ s with ballState := { s.ballState with
          vx := -s.ballState.vx
          x := Pong.SCREEN_WIDTH - Pong.BALL_SIZE } }, [Pong.Res.wallFar]) := by
  unfold Pong.stepFar; rw [if_pos h]

/-! ### Helper lemmas about the BirdDodger stages -/

@[simp]
theorem bd_checkCollisions_score (s : BD.BDState) :
    (BD.checkCollisions s).score = s.score := by
  unfold BD.checkCollisions; split <;> [rfl; skip]; split <;> rfl

@[simp]
theorem bd_checkCollisions_scrollSpeed (s : BD.BDState) :
    (BD.checkCollisions s).scrollSpeed = s.scrollSpeed := by
  unfold BD.checkCollisions; split <;> [rfl; skip]; split <;> rfl

@[simp]
theorem bd_checkCollisions_birdState (s : BD.BDState) :
    (BD.checkCollisions s).birdState = s.birdState := by
  unfold BD.checkCollisions; split <;> [rfl; skip]; split <;> rfl

@[simp]
theorem bd_checkCollisions_rollFilter (s : BD.BDState) :
    (BD.checkCollisions s).rollFilter = s.rollFilter := by
  unfold BD.checkCollisions; split <;> [rfl; skip]; split <;> rfl

theorem bd_checkCollisions_of (s : BD.BDState) (ht : s.gameOver = false)
    (hc : s.birdState.any (BD.collideB (s.planeX * (BD.SCREEN_WIDTH - BD.PLANE_SIZE))) = true) :
    BD.checkCollisions s = { s with gameOver := true } := by
  unfold BD.checkCollisions
  rw [if_neg (by simp [ht]), if_pos hc]

@[simp]
theorem stepPaddle_fst_ballState_y (s : Pong.PongState) :
    (Pong.stepPaddle s).1.ballState.y = s.ballState.y := by
  unfold Pong.stepPaddle; split_ifs <;> rfl

@[simp]
theorem stepPaddle_fst_paddleY (s : Pong.PongState) :
    (Pong.stepPaddle s).1.paddleY = s.paddleY := by
  unfold Pong.stepPaddle; split_ifs <;> rfl

@[simp]
theorem stepPaddle_fst_pitchFilter (s : Pong.PongState) :
    (Pong.stepPaddle s).1.pitchFilter = s.pitchFilter := by
  unfold Pong.stepPaddle; split_ifs <;> rfl

@[simp]
theorem stepFar_fst_ballState_y (s : Pong.PongState) :
    (Pong.stepFar s).1.ballState.y = s.ballState.y := by
  unfold Pong.stepFar; split <;> rfl

@[simp]
theorem stepFar_fst_paddleY (s : Pong.PongState) :
    (Pong.stepFar s).1.paddleY = s.paddleY := by
  unfold Pong.stepFar; split <;> rfl

@[simp]
theorem stepFar_fst_score (s : Pong.PongState) :
    (Pong.stepFar s).1.score = s.score := by
  unfold Pong.stepFar; split <;> rfl

@[simp]
theorem stepFar_fst_gameOver (s : Pong.PongState) :
    (Pong.stepFar s).1.gameOver = s.gameOver := by
  unfold Pong.stepFar; split <;> rfl

@[simp]
theorem stepFar_fst_pitchFilter (s : Pong.PongState) :
    (Pong.stepFar s).1.pitchFilter = s.pitchFilter := by
  unfold Pong.stepFar; split <;> rfl

@[simp]
theorem checkCollisions_ballState_y (s : Pong.PongState) :
    (Pong.checkCollisions s).ballState.y = s.ballState.y := by
  unfold Pong.checkCollisions Pong.checkCollisionsEv
  simp

@[simp]
theorem checkCollisions_paddleY (s : Pong.PongState) :
    (Pong.checkCollisions s).paddleY = s.paddleY := by
  unfold Pong.checkCollisions Pong.checkCollisionsEv
  simp

@[simp]
theorem checkCollisions_pitchFilter (s : Pong.PongState) :
    (Pong.checkCollisions s).pitchFilter = s.pitchFilter := by
  unfold Pong.checkCollisions Pong.checkCollisionsEv
  simp

@[simp]
theorem bd_tickCore_rollFilter (s : BD.BDState) (r : ℕ) :
    (BD.tickCore s r).rollFilter = s.rollFilter := by
  unfold BD.tickCore
  simp

@[simp]
theorem bd_tickCore_scrollSpeed (s : BD.BDState) (r : ℕ) :
    (BD.tickCore s r).scrollSpeed = s.scrollSpeed := by
  unfold BD.tickCore
  simp

@[simp]
theorem bd_tickPlane_rollFilter (s : BD.BDState) (a : ℚ) :
    (BD.tickPlane s a).rollFilter = s.rollFilter.update a := by
  unfold BD.tickPlane
  rfl

@[simp]
theorem bd_tickPlane_scrollSpeed (s : BD.BDState) (a : ℚ) :
    (BD.tickPlane s a).scrollSpeed = s.scrollSpeed := by
  unfold BD.tickPlane
  rfl

@[simp]
theorem bd_tickPlane_score (s : BD.BDState) (a : ℚ) :
    (BD.tickPlane s a).score = s.score := by
  unfold BD.tickPlane
  rfl

@[simp]
theorem bd_tickPlane_lastDifficultyScore (s : BD.BDState) (a : ℚ) :
    (BD.tickPlane s a).lastDifficultyScore = s.lastDifficultyScore := by
  unfold BD.tickPlane
  rfl

@[simp]
theorem bd_tickDifficulty_rollFilter (s : BD.BDState) :
    (BD.tickDifficulty s).rollFilter = s.rollFilter := by
  unfold BD.tickDifficulty
  rfl

@[simp]
theorem bd_tickDifficulty_scrollSpeed (s : BD.BDState) :
    (BD.tickDifficulty s).scrollSpeed =
      (BD.difficultyStep s.score s.lastDifficultyScore s.scrollSpeed).1 := by
  unfold BD.tickDifficulty
  rfl

theorem difficultyStep_mono (score last : ℤ) (speed : ℚ) :
    speed ≤ (BD.difficultyStep score last speed).1 := by
  unfold BD.difficultyStep
  split_ifs with h1 h2
  · have : speed ≤ speed + BD.SPEED_INCREMENT := by
      unfold BD.SPEED_INCREMENT; linarith
    exact le_min this (le_of_lt h1.2.2)
  · exact le_refl speed
  · exact le_refl speed

theorem difficultyStep_le_max (score last : ℤ) (speed : ℚ)
    (h : speed ≤ BD.MAX_SPEED) :
    (BD.difficultyStep score last speed).1 ≤ BD.MAX_SPEED := by
  unfold BD.difficultyStep
  split_ifs with h1 h2
  · exact min_le_right _ _
  · exact h
  · exact h

theorem bd_updateGame_scrollSpeed (s : BD.BDState) (a : ℚ) (r : ℕ) :
    (BD.updateGame s a r).scrollSpeed =
      (if s.gameOver then s.scrollSpeed
        else (BD.difficultyStep (BD.tickPlane (BD.tickCore s r) a).score
          (BD.tickPlane (BD.tickCore s r) a).lastDifficultyScore s.scrollSpeed).1) := by
  by_cases hg : s.gameOver
  · simp [BD.updateGame, hg]
  · simp [BD.updateGame, hg]

theorem spawnList_length (bs : List BD.Bird) (x0 : ℚ) :
    (BD.spawnList bs x0).length = bs.length := by
  induction bs with
  | nil => rfl
  | cons b rest ih =>
    unfold BD.spawnList
    split <;> simp [ih]

theorem spawnList_of_full (bs : List BD.Bird) (x0 : ℚ)
    (h : ∀ b ∈ bs, b.active = true) :
    BD.spawnList bs x0 = bs := by
  induction bs with
  | nil => rfl
  | cons b rest ih =>
    unfold BD.spawnList
    rw [if_pos (h b (List.mem_cons_self b rest)), ih]
    intro b2 hb2
    exact h b2 (List.mem_cons_of_mem b hb2)

theorem spawnList_countActive (bs : List BD.Bird) (x0 : ℚ) :
    BD.countActive (BD.spawnList bs x0) ≤ BD.countActive bs + 1 := by
  induction bs with
  | nil => simp [BD.spawnList, BD.countActive]
  | cons b rest ih =>
    unfold BD.spawnList
    split
    · rename_i hact
      unfold BD.countActive at ih ⊢
      simp [List.countP_cons, hact]
      omega
    · rename_i hact
      unfold BD.countActive
      simp only [List.countP_cons]
      simp only [Bool.not_eq_true] at hact
      simp [hact]

theorem moveBirds_length (sp : ℚ) (bs : List BD.Bird) :
    (BD.moveBirds sp bs).1.length = bs.length := by
  induction bs with
  | nil => rfl
  | cons b rest ih =>
    unfold BD.moveBirds
    split_ifs <;> simp [ih]

theorem bd_tickCore_birdState_length (s : BD.BDState) (r : ℕ) :
    (BD.tickCore s r).birdState.length = s.birdState.length := by
  unfold BD.tickCore
  simp only [bd_checkCollisions_birdState]
  rw [moveBirds_length]
  split <;> simp [spawnList_length]

theorem bd_updateGame_birdState_length (s : BD.BDState) (a : ℚ) (r : ℕ) :
    (BD.updateGame s a r).birdState.length = s.birdState.length := by
  by_cases hg : s.gameOver
  · simp [BD.updateGame, hg]
  · simp only [BD.updateGame, hg, if_neg (by simp [hg] : ¬ s.gameOver = true)]
    show (BD.tickDifficulty (BD.tickPlane (BD.tickCore s r) a)).birdState.length = _
    have h1 : (BD.tickDifficulty (BD.tickPlane (BD.tickCore s r) a)).birdState =
        (BD.tickPlane (BD.tickCore s r) a).birdState := rfl
    have h2 : (BD.tickPlane (BD.tickCore s r) a).birdState = (BD.tickCore s r).birdState := rfl
    rw [h1, h2, bd_tickCore_birdState_length]

/-! ### Claim theorems -/

/-- C1: once the game-over phase is reached, every subsequent tick
(`updateGame`) of either game leaves the whole session state — score,
entity positions and velocities, difficulty, pool activation flags —
unchanged; no simulation mutation occurs while the game is over. -/
theorem c1_gameOver_freezes (s : Pong.PongState) (t : BD.BDState) (aY aX : ℚ) (r : ℕ)
    (hs : s.gameOver = true) (ht : t.gameOver = true) :
    Pong.updateGame s aY = s ∧ BD.updateGame t aX r = t := by
  unfold Pong.updateGame BD.updateGame
  rw [hs, ht]
  exact ⟨rfl, rfl⟩



/-- Witness for C1 at concrete game-over states. -/
theorem c1_gameOver_freezes_witness :
    (c1PongState.gameOver = true ∧ c1BDState.gameOver = true) ∧
    (Pong.updateGame c1PongState 0 = c1PongState ∧ BD.updateGame c1BDState 0 0 = c1BDState) :=
  ⟨⟨rfl, rfl⟩, c1_gameOver_freezes c1PongState c1BDState 0 0 0 rfl rfl⟩

/-- C2: in the Playing phase, a terminal condition — in Pong the ball
reaching the far (paddle-side) boundary `x ≤ 0` with `y` outside the
paddle extent, in BirdDodger the plane's AABB overlapping an active
bird's AABB — sets the game-over flag on that very collision pass, and
the transition itself leaves the score unchanged. -/
theorem c2_terminal_transition (s : Pong.PongState) (t : BD.BDState)
    (hx : s.ballState.x ≤ 0)
    (hy : s.ballState.y < s.paddleY * (Pong.SCREEN_HEIGHT - Pong.PADDLE_HEIGHT) ∨
      s.paddleY * (Pong.SCREEN_HEIGHT - Pong.PADDLE_HEIGHT) + Pong.PADDLE_HEIGHT < s.ballState.y)
    (ht : t.gameOver = false)
    (hc : t.birdState.any (BD.collideB (t.planeX * (BD.SCREEN_WIDTH - BD.PLANE_SIZE))) = true) :
    ((Pong.checkCollisions s).gameOver = true ∧ (Pong.checkCollisions s).score = s.score) ∧
    ((BD.checkCollisions t).gameOver = true ∧ (BD.checkCollisions t).score = t.score) := by
  refine ⟨?_, ?_⟩
  · set s1 := (Pong.stepWalls s).1 with hs1
    have hx1 : s1.ballState.x ≤ 0 := by simpa [hs1] using hx
    have hout1 : ¬(s1.paddleY * (Pong.SCREEN_HEIGHT - Pong.PADDLE_HEIGHT) ≤ s1.ballState.y ∧
        s1.ballState.y ≤ s1.paddleY * (Pong.SCREEN_HEIGHT - Pong.PADDLE_HEIGHT) +
          Pong.PADDLE_HEIGHT) := by
      simp only [hs1, stepWalls_fst_ballState_y, stepWalls_fst_paddleY]
      rcases hy with h | h
      · intro hcontra; linarith [hcontra.1]
      · intro hcontra; linarith [hcontra.2]
    have hp := stepPaddle_miss s1 hx1 hout1
    have hfar : ¬ Pong.SCREEN_WIDTH - Pong.BALL_SIZE ≤
        ({ s1 with gameOver := true } : Pong.PongState).ballState.x := by
      simp only [Pong.SCREEN_WIDTH, Pong.BALL_SIZE]
      intro hcontra
      have : ({ s1 with gameOver := true } : Pong.PongState).ballState.x = s1.ballState.x := rfl
      rw [this] at hcontra
      linarith
    have hf := stepFar_of_lt ({ s1 with gameOver := true }) hfar
    unfold Pong.checkCollisions Pong.checkCollisionsEv
    rw [← hs1]
    simp only [hp, hf]
    refine ⟨trivial, ?_⟩
    show s1.score = s.score
    rw [hs1]
    exact stepWalls_fst_score s
  · rw [bd_checkCollisions_of t ht hc]
    exact ⟨rfl, rfl⟩



/-- Witness for C2: a missed ball at `x = -1` outside a centered paddle,
and a plane at pixel x 0 overlapping an active bird at `(0, 100)`. -/
theorem c2_terminal_transition_witness :
    (c2PongState.ballState.x ≤ 0 ∧
      (c2PongState.ballState.y <
          c2PongState.paddleY * (Pong.SCREEN_HEIGHT - Pong.PADDLE_HEIGHT) ∨
        c2PongState.paddleY * (Pong.SCREEN_HEIGHT - Pong.PADDLE_HEIGHT) + Pong.PADDLE_HEIGHT <
          c2PongState.ballState.y) ∧
      c2BDState.gameOver = false ∧
      c2BDState.birdState.any
        (BD.collideB (c2BDState.planeX * (BD.SCREEN_WIDTH - BD.PLANE_SIZE))) = true) ∧
    (((Pong.checkCollisions c2PongState).gameOver = true ∧
        (Pong.checkCollisions c2PongState).score = c2PongState.score) ∧
      ((BD.checkCollisions c2BDState).gameOver = true ∧
        (BD.checkCollisions c2BDState).score = c2BDState.score)) := by
  have hx : c2PongState.ballState.x ≤ 0 := by
    norm_num [c2PongState]
  have hy : c2PongState.ballState.y <
      c2PongState.paddleY * (Pong.SCREEN_HEIGHT - Pong.PADDLE_HEIGHT) ∨
      c2PongState.paddleY * (Pong.SCREEN_HEIGHT - Pong.PADDLE_HEIGHT) + Pong.PADDLE_HEIGHT <
        c2PongState.ballState.y := by
    left
    norm_num [c2PongState, Pong.SCREEN_HEIGHT, Pong.PADDLE_HEIGHT]
  have hc : c2BDState.birdState.any
      (BD.collideB (c2BDState.planeX * (BD.SCREEN_WIDTH - BD.PLANE_SIZE))) = true := by
    simp only [c2BDState, List.any_cons, List.any_nil, BD.collideB, BD.SCREEN_WIDTH,
      BD.PLANE_SIZE, BD.BIRD_SIZE, BD.PLANE_Y]
    norm_num
  exact ⟨⟨hx, hy, rfl, hc⟩, c2_terminal_transition c2PongState c2BDState hx hy rfl hc⟩

/-- C3 (evaluation at the failing input): `PongGame::resetBall` computes
its "random angle between -45 and 45 degrees" as `esp_random() % 90 - 45`
with `esp_random()` of type `uint32_t`, so the subtraction wraps modulo
`2 ^ 32` whenever `esp_random() % 90 < 45`.  For the draw `0` the value
handed (in degrees) to `cos`/`sin` is `4294967251`, far above any value
in the documented `[-45, 45]` range, while a draw like `50` yields the
intended small angle `5`. -/
theorem c3_restart_angle_overflow :
    Pong.pongAngleBits 0 = 4294967251 ∧ 45 < Pong.pongAngleBits 0 ∧
    Pong.pongAngleBits 50 = 5 := by
  refine ⟨by decide, ?_, by decide⟩
  have h : Pong.pongAngleBits 0 = 4294967251 := by decide
  rw [h]
  norm_num


/-- C9 counterexample: a restart (Select press while game over, the live
IMU sample at that moment being 3) fires the GameOver→Playing
transition, yet leaves the filter's `current` at its old value 7 — the
restart does not reset the filter to the first live sample. -/
theorem c9_restart_no_filter_reset :
    (Pong.handleInput (fun _ => 1) (fun _ => 0) 0 c9PongState
        (some { btn := Button.Select, action := Action.Press })).gameOver = false ∧
    (Pong.handleInput (fun _ => 1) (fun _ => 0) 0 c9PongState
        (some { btn := Button.Select, action := Action.Press })).pitchFilter.current = 7 ∧
    (7 : ℚ) ≠ 3 := by
  refine ⟨?_, ?_, by norm_num⟩ <;>
    simp [Pong.handleInput, c9PongState]

/-- C9 (amended): the filter's `current` is reset to the first live
sensor sample at session start (`onStart`); the GameOver→Playing restart
(`handleInput`) leaves the filter untouched — `current` persists across
restart; and during a tick `current` changes only through the
exponential update rule (`EMA.update`), exactly once per Playing tick
and never in a GameOver tick. -/
theorem c9_filter_update_discipline (s : Pong.PongState) (t : BD.BDState) (q a b : ℚ)
    (cosd sind : ℕ → ℚ) (r rb : ℕ) (ev evb : Option InEvent) :
    (Pong.onStart s q).pitchFilter.current = q ∧
    (BD.onStart t q).rollFilter.current = q ∧
    (Pong.handleInput cosd sind r s ev).pitchFilter = s.pitchFilter ∧
    (BD.handleInput t evb).rollFilter = t.rollFilter ∧
    (Pong.updateGame s a).pitchFilter =
      (if s.gameOver then s.pitchFilter else s.pitchFilter.update a) ∧
    (BD.updateGame t b rb).rollFilter =
      (if t.gameOver then t.rollFilter else t.rollFilter.update b) := by
  refine ⟨rfl, rfl, ?_, ?_, ?_, ?_⟩
  · cases ev with
    | none => rfl
    | some e => simp only [Pong.handleInput]; split_ifs <;> rfl
  · cases evb with
    | none => rfl
    | some e => simp only [BD.handleInput]; split_ifs <;> rfl
  · by_cases hg : s.gameOver
    · simp [Pong.updateGame, hg]
    · simp [Pong.updateGame, hg, Pong.tickPaddle, Pong.moveBall]
  · by_cases hg : t.gameOver
    · simp [BD.updateGame, hg]
    · simp [BD.updateGame, hg]

/-- C10: the GameOver→Playing restart in both games leaves the player
actor's normalized axis position (paddleY / planeX) unchanged — the
actor keeps its pre-game-over position — although the construction-time
value of both is 0.5; the restart transition itself does fire (the
game-over flag clears). -/
theorem c10_restart_keeps_actor_position (cosd sind : ℕ → ℚ) (r r2 : ℕ)
    (s : Pong.PongState) (t : BD.BDState)
    (hs : s.gameOver = true) (ht : t.gameOver = true) :
    (Pong.handleInput cosd sind r s
        (some { btn := Button.Select, action := Action.Press })).paddleY = s.paddleY ∧
    (Pong.handleInput cosd sind r s
        (some { btn := Button.Select, action := Action.Press })).gameOver = false ∧
    (BD.handleInput t
        (some { btn := Button.Select, action := Action.Press })).planeX = t.planeX ∧
    (BD.handleInput t
        (some { btn := Button.Select, action := Action.Press })).gameOver = false ∧
    (Pong.mkPongState cosd sind r2).paddleY = 1 / 2 ∧
    BD.mkBDState.planeX = 1 / 2 := by
  refine ⟨?_, ?_, ?_, ?_, rfl, rfl⟩ <;>
    simp [Pong.handleInput, BD.handleInput, hs, ht]



/-- Witness for C10 at concrete game-over states with off-center actors
(paddleY = 0.9, planeX = 0.25). -/
theorem c10_restart_keeps_actor_position_witness :
    (c10PongState.gameOver = true ∧ c10BDState.gameOver = true) ∧
    ((Pong.handleInput (fun _ => 1) (fun _ => 0) 3 c10PongState
        (some { btn := Button.Select, action := Action.Press })).paddleY =
          c10PongState.paddleY ∧
      (Pong.handleInput (fun _ => 1) (fun _ => 0) 3 c10PongState
        (some { btn := Button.Select, action := Action.Press })).gameOver = false ∧
      (BD.handleInput c10BDState
        (some { btn := Button.Select, action := Action.Press })).planeX =
          c10BDState.planeX ∧
      (BD.handleInput c10BDState
        (some { btn := Button.Select, action := Action.Press })).gameOver = false ∧
      (Pong.mkPongState (fun _ => 1) (fun _ => 0) 4).paddleY = 1 / 2 ∧
      BD.mkBDState.planeX = 1 / 2) :=
  ⟨⟨rfl, rfl⟩,
    c10_restart_keeps_actor_position (fun _ => 1) (fun _ => 0) 3 4 c10PongState c10BDState
      rfl rfl⟩

/-- C6: a tick in which the ball reaches `x ≤ PADDLE_WIDTH` with `y`
inside the paddle's current extent (and away from the top/bottom walls)
resolves as a paddle hit: `vx` flips sign, `x` is clamped to the contact
boundary `PADDLE_WIDTH`, `vy` is perturbed by
`(hitFraction - 0.5) * 0.5` with `hitFraction` the contact position
along the paddle, the score increments by exactly 1, and the phase
stays Playing. -/
theorem c6_paddle_hit_resolution (s : Pong.PongState)
    (hg : s.gameOver = false)
    (hy0 : 0 < s.ballState.y)
    (hy1 : s.ballState.y < Pong.SCREEN_HEIGHT - Pong.BALL_SIZE)
    (hx : s.ballState.x ≤ Pong.PADDLE_WIDTH)
    (hin : s.paddleY * (Pong.SCREEN_HEIGHT - Pong.PADDLE_HEIGHT) ≤ s.ballState.y ∧
      s.ballState.y ≤ s.paddleY * (Pong.SCREEN_HEIGHT - Pong.PADDLE_HEIGHT) +
        Pong.PADDLE_HEIGHT) :
    (Pong.checkCollisions s).ballState.vx = -s.ballState.vx ∧
    (Pong.checkCollisions s).ballState.x = Pong.PADDLE_WIDTH ∧
    (Pong.checkCollisions s).ballState.vy =
      s.ballState.vy +
        ((s.ballState.y - s.paddleY * (Pong.SCREEN_HEIGHT - Pong.PADDLE_HEIGHT)) /
            Pong.PADDLE_HEIGHT - 1 / 2) * (1 / 2) ∧
    (Pong.checkCollisions s).score = s.score + 1 ∧
    (Pong.checkCollisions s).gameOver = false := by
  have hnw : ¬(s.ballState.y ≤ 0 ∨ Pong.SCREEN_HEIGHT - Pong.BALL_SIZE ≤ s.ballState.y) := by
    push_neg
    exact ⟨hy0, hy1⟩
  have hw := stepWalls_of_not s hnw
  have hp := stepPaddle_hit s hx hin
  unfold Pong.checkCollisions Pong.checkCollisionsEv
  simp only [hw, hp]
  rw [stepFar_of_lt _ (by
    show ¬ Pong.SCREEN_WIDTH - Pong.BALL_SIZE ≤ Pong.PADDLE_WIDTH
    norm_num [Pong.SCREEN_WIDTH, Pong.BALL_SIZE, Pong.PADDLE_WIDTH])]
  exact ⟨rfl, rfl, rfl, rfl, hg⟩

/-- Witness for C6: ball at `(3, 60)` moving left, paddle centered
(extent `[52, 76]`). -/
theorem c6_paddle_hit_resolution_witness :
    (c6PongState.gameOver = false ∧ 0 < c6PongState.ballState.y ∧
      c6PongState.ballState.y < Pong.SCREEN_HEIGHT - Pong.BALL_SIZE ∧
      c6PongState.ballState.x ≤ Pong.PADDLE_WIDTH ∧
      c6PongState.paddleY * (Pong.SCREEN_HEIGHT - Pong.PADDLE_HEIGHT) ≤
        c6PongState.ballState.y ∧
      c6PongState.ballState.y ≤
        c6PongState.paddleY * (Pong.SCREEN_HEIGHT - Pong.PADDLE_HEIGHT) +
          Pong.PADDLE_HEIGHT) ∧
    ((Pong.checkCollisions c6PongState).ballState.vx = -c6PongState.ballState.vx ∧
      (Pong.checkCollisions c6PongState).ballState.x = Pong.PADDLE_WIDTH ∧
      (Pong.checkCollisions c6PongState).ballState.vy =
        c6PongState.ballState.vy +
          ((c6PongState.ballState.y -
              c6PongState.paddleY * (Pong.SCREEN_HEIGHT - Pong.PADDLE_HEIGHT)) /
              Pong.PADDLE_HEIGHT - 1 / 2) * (1 / 2) ∧
      (Pong.checkCollisions c6PongState).score = c6PongState.score + 1 ∧
      (Pong.checkCollisions c6PongState).gameOver = false) := by
  have h1 : 0 < c6PongState.ballState.y := by norm_num [c6PongState]
  have h2 : c6PongState.ballState.y < Pong.SCREEN_HEIGHT - Pong.BALL_SIZE := by
    norm_num [c6PongState, Pong.SCREEN_HEIGHT, Pong.BALL_SIZE]
  have h3 : c6PongState.ballState.x ≤ Pong.PADDLE_WIDTH := by
    norm_num [c6PongState, Pong.PADDLE_WIDTH]
  have h4 : c6PongState.paddleY * (Pong.SCREEN_HEIGHT - Pong.PADDLE_HEIGHT) ≤
      c6PongState.ballState.y := by
    norm_num [c6PongState, Pong.SCREEN_HEIGHT, Pong.PADDLE_HEIGHT]
  have h5 : c6PongState.ballState.y ≤
      c6PongState.paddleY * (Pong.SCREEN_HEIGHT - Pong.PADDLE_HEIGHT) +
        Pong.PADDLE_HEIGHT := by
    norm_num [c6PongState, Pong.SCREEN_HEIGHT, Pong.PADDLE_HEIGHT]
  exact ⟨⟨rfl, h1, h2, h3, h4, h5⟩,
    c6_paddle_hit_resolution c6PongState rfl h1 h2 h3 ⟨h4, h5⟩⟩

/-- C5 counterexample: ball at `(60, -1)` moving up contacts the top
wall; `checkCollisions` inverts `vy` (−2 becomes 2) but leaves
`y = -1` unchanged — the position is not clamped to the boundary and
remains outside the playfield on the y axis. -/
theorem c5_no_y_clamp_counterexample :
    (Pong.checkCollisions c5PongState).ballState.vy = 2 ∧
    (Pong.checkCollisions c5PongState).ballState.y = -1 ∧
    ¬(0 ≤ (Pong.checkCollisions c5PongState).ballState.y) := by
  norm_num [Pong.checkCollisions, Pong.checkCollisionsEv, Pong.stepWalls, Pong.stepPaddle,
    Pong.stepFar, c5PongState, Pong.SCREEN_HEIGHT, Pong.SCREEN_WIDTH, Pong.BALL_SIZE,
    Pong.PADDLE_WIDTH, Pong.PADDLE_HEIGHT]

/-- C5 (amended): wall resolutions are asymmetric.  `checkCollisions`
never changes `y`: a top/bottom wall contact (away from the paddle-side
region) only inverts `vy`, with no clamping, so the ball can stay
outside the playfield on the y axis.  A far-wall contact inverts `vx`
and clamps `x` to `SCREEN_WIDTH - BALL_SIZE`, which does leave the ball
inside the playfield on the x axis. -/
theorem c5_wall_resolution (s : Pong.PongState) :
    (Pong.checkCollisions s).ballState.y = s.ballState.y ∧
    ((s.ballState.y ≤ 0 ∨ Pong.SCREEN_HEIGHT - Pong.BALL_SIZE ≤ s.ballState.y) →
      ¬ s.ballState.x ≤ Pong.PADDLE_WIDTH →
      (Pong.checkCollisions s).ballState.vy = -s.ballState.vy) ∧
    (Pong.SCREEN_WIDTH - Pong.BALL_SIZE ≤ s.ballState.x →
      (Pong.checkCollisions s).ballState.vx = -s.ballState.vx ∧
      (Pong.checkCollisions s).ballState.x = Pong.SCREEN_WIDTH - Pong.BALL_SIZE ∧
      0 ≤ (Pong.checkCollisions s).ballState.x ∧
      (Pong.checkCollisions s).ballState.x ≤ Pong.SCREEN_WIDTH - Pong.BALL_SIZE) := by
  refine ⟨checkCollisions_ballState_y s, ?_, ?_⟩
  · intro htb hxfar
    have hw := stepWalls_of s htb
    unfold Pong.checkCollisions Pong.checkCollisionsEv
    simp only [hw]
    have hpad := stepPaddle_of_far
      ({ s with ballState := { s.ballState with vy := -s.ballState.vy } }) hxfar
    simp only [hpad]
    by_cases hfar : Pong.SCREEN_WIDTH - Pong.BALL_SIZE ≤
        ({ s with ballState := { s.ballState with vy := -s.ballState.vy } } :
          Pong.PongState).ballState.x
    · rw [stepFar_of _ hfar]
    · rw [stepFar_of_lt _ hfar]
  · intro hxf
    have hnp : ¬ s.ballState.x ≤ Pong.PADDLE_WIDTH := by
      simp only [Pong.SCREEN_WIDTH, Pong.BALL_SIZE] at hxf
      norm_num [Pong.PADDLE_WIDTH]
      linarith
    unfold Pong.checkCollisions Pong.checkCollisionsEv
    have hw1 : (Pong.stepWalls s).1.ballState.x = s.ballState.x := stepWalls_fst_ballState_x s
    have hp := stepPaddle_of_far (Pong.stepWalls s).1 (by rw [hw1]; exact hnp)
    simp only [hp]
    have hf := stepFar_of (Pong.stepWalls s).1 (by rw [hw1]; exact hxf)
    rw [hf]
    refine ⟨?_, rfl, by norm_num [Pong.SCREEN_WIDTH, Pong.BALL_SIZE], le_refl _⟩
    show -(Pong.stepWalls s).1.ballState.vx = -s.ballState.vx
    rw [stepWalls_fst_ballState_vx]

/-- Witness for C5 (amended): the top-wall branch at ball `(60, -1)`
and the far-wall branch at ball `(125, 60)`. -/
theorem c5_wall_resolution_witness :
    ((c5PongState.ballState.y ≤ 0 ∨
        Pong.SCREEN_HEIGHT - Pong.BALL_SIZE ≤ c5PongState.ballState.y) ∧
      ¬ c5PongState.ballState.x ≤ Pong.PADDLE_WIDTH ∧
      (Pong.checkCollisions c5PongState).ballState.vy = -c5PongState.ballState.vy) ∧
    (Pong.SCREEN_WIDTH - Pong.BALL_SIZE ≤ c5FarPongState.ballState.x ∧
      (Pong.checkCollisions c5FarPongState).ballState.vx = -c5FarPongState.ballState.vx ∧
      (Pong.checkCollisions c5FarPongState).ballState.x =
        Pong.SCREEN_WIDTH - Pong.BALL_SIZE) := by
  have htb : c5PongState.ballState.y ≤ 0 ∨
      Pong.SCREEN_HEIGHT - Pong.BALL_SIZE ≤ c5PongState.ballState.y := by
    left
    norm_num [c5PongState]
  have hnp : ¬ c5PongState.ballState.x ≤ Pong.PADDLE_WIDTH := by
    norm_num [c5PongState, Pong.PADDLE_WIDTH]
  have hxf : Pong.SCREEN_WIDTH - Pong.BALL_SIZE ≤ c5FarPongState.ballState.x := by
    norm_num [c5FarPongState, Pong.SCREEN_WIDTH, Pong.BALL_SIZE]
  refine ⟨⟨htb, hnp, (c5_wall_resolution c5PongState).2.1 htb hnp⟩,
    ⟨hxf, ?_, ?_⟩⟩
  · exact ((c5_wall_resolution c5FarPongState).2.2 hxf).1
  · exact ((c5_wall_resolution c5FarPongState).2.2 hxf).2.1

/-- C4 counterexample: with the ball at `(125, 0)` both the top-wall
condition and the far-wall condition hold on the same tick;
`checkCollisions` applies BOTH resolutions — `vy` is inverted by the
top/bottom-wall branch and `vx` is inverted (and `x` clamped) by the
far-wall branch — so two collision resolutions are applied to the ball
in a single tick, not at most one. -/
theorem c4_two_resolutions_counterexample :
    (Pong.checkCollisionsEv c4PongState).2 = [Pong.Res.wallTB, Pong.Res.wallFar] ∧
    ¬((Pong.checkCollisionsEv c4PongState).2.length ≤ 1) ∧
    (Pong.checkCollisions c4PongState).ballState.vy = 2 ∧
    (Pong.checkCollisions c4PongState).ballState.vx = -(3 / 2) := by
  norm_num [Pong.checkCollisions, Pong.checkCollisionsEv, Pong.stepWalls, Pong.stepPaddle,
    Pong.stepFar, c4PongState, Pong.SCREEN_HEIGHT, Pong.SCREEN_WIDTH, Pong.BALL_SIZE,
    Pong.PADDLE_WIDTH, Pong.PADDLE_HEIGHT]

/-- C4 (amended): the collision checks do run in the fixed source order
top/bottom walls → actor-side wall (hit, else miss) → far wall — the
resolution tags always come out strictly ordered by `resIdx` — and at
most one of the actor-side or far-wall resolutions fires per tick; but a
top/bottom wall reflection may be applied in the same tick as one of
those, so up to two resolutions can be applied to the ball in one
tick. -/
theorem c4_fixed_order_resolutions (s : Pong.PongState) :
    List.Pairwise (fun a b => resIdx a < resIdx b) (Pong.checkCollisionsEv s).2 ∧
    (Pong.checkCollisionsEv s).2.countP (fun e => !(e == Pong.Res.wallTB)) ≤ 1 := by
  unfold Pong.checkCollisionsEv Pong.stepWalls Pong.stepPaddle Pong.stepFar
  split_ifs <;>
    simp_all [resIdx, Pong.SCREEN_WIDTH, Pong.SCREEN_HEIGHT, Pong.BALL_SIZE,
      Pong.PADDLE_WIDTH, Pong.PADDLE_HEIGHT] <;>
    linarith

/-- C7: the difficulty scalar (`scrollSpeed`) is monotonically
non-decreasing within a session and never exceeds the hard ceiling
`MAX_SPEED`; its update step changes it exactly when the score is a
positive multiple of 10 that differs from the last difficulty-adjusted
score (so repeated ticks at the same score never re-trigger: the step is
a fixpoint once `lastDifficultyScore` records the score), the change is
the fixed increment capped at the ceiling, a whole `updateGame` tick
never decreases it and preserves the bound, and only a restart resets it
to the floor value `INITIAL_SPEED`. -/
theorem c7_difficulty_progression (score last : ℤ) (speed : ℚ)
    (s t : BD.BDState) (a : ℚ) (r : ℕ)
    (hb : speed ≤ BD.MAX_SPEED) (ht : t.gameOver = true) :
    speed ≤ (BD.difficultyStep score last speed).1 ∧
    (BD.difficultyStep score last speed).1 ≤ BD.MAX_SPEED ∧
    ((BD.difficultyStep score last speed).1 = speed ∨
      (BD.difficultyStep score last speed).1 =
        min (speed + BD.SPEED_INCREMENT) BD.MAX_SPEED) ∧
    ((BD.difficultyStep score last speed).1 ≠ speed ↔
      0 < score ∧ score % 10 = 0 ∧ speed < BD.MAX_SPEED ∧ score ≠ last) ∧
    BD.difficultyStep score (BD.difficultyStep score last speed).2
        (BD.difficultyStep score last speed).1 =
      BD.difficultyStep score last speed ∧
    s.scrollSpeed ≤ (BD.updateGame s a r).scrollSpeed ∧
    (s.scrollSpeed ≤ BD.MAX_SPEED → (BD.updateGame s a r).scrollSpeed ≤ BD.MAX_SPEED) ∧
    (BD.handleInput t (some { btn := Button.Select, action := Action.Press })).scrollSpeed =
      BD.INITIAL_SPEED := by
  refine ⟨difficultyStep_mono score last speed,
    difficultyStep_le_max score last speed hb, ?_, ?_, ?_, ?_, ?_, ?_⟩
  · unfold BD.difficultyStep
    split_ifs with h1 h2
    · right; rfl
    · left; rfl
    · left; rfl
  · constructor
    · intro hne
      unfold BD.difficultyStep at hne
      split_ifs at hne with h1 h2
      · exact ⟨h1.1, h1.2.1, h1.2.2, h2⟩
      · exact absurd rfl hne
      · exact absurd rfl hne
    · rintro ⟨hp, hm, hlt, hne⟩
      unfold BD.difficultyStep
      rw [if_pos ⟨hp, hm, hlt⟩, if_pos hne]
      have hmin : speed < min (speed + BD.SPEED_INCREMENT) BD.MAX_SPEED := by
        refine lt_min ?_ hlt
        unfold BD.SPEED_INCREMENT
        linarith
      exact ne_of_gt hmin
  · unfold BD.difficultyStep
    split_ifs <;> first | rfl | simp_all
  · rw [bd_updateGame_scrollSpeed]
    split
    · exact le_refl _
    · exact difficultyStep_mono _ _ _
  · intro hbs
    rw [bd_updateGame_scrollSpeed]
    split
    · exact hbs
    · exact difficultyStep_le_max _ _ _ hbs
  · simp [BD.handleInput, ht]

/-- Witness for C7 with `speed = 1 ≤ MAX_SPEED` and a concrete
game-over state for the restart conjunct. -/
theorem c7_difficulty_progression_witness :
    ((1 : ℚ) ≤ BD.MAX_SPEED ∧ c7OverBDState.gameOver = true) ∧
    ((1 : ℚ) ≤ (BD.difficultyStep 10 0 1).1 ∧
      (BD.difficultyStep 10 0 1).1 ≤ BD.MAX_SPEED ∧
      ((BD.difficultyStep 10 0 1).1 = 1 ∨
        (BD.difficultyStep 10 0 1).1 = min (1 + BD.SPEED_INCREMENT) BD.MAX_SPEED) ∧
      ((BD.difficultyStep 10 0 1).1 ≠ 1 ↔
        0 < (10 : ℤ) ∧ (10 : ℤ) % 10 = 0 ∧ (1 : ℚ) < BD.MAX_SPEED ∧ (10 : ℤ) ≠ 0) ∧
      BD.difficultyStep 10 (BD.difficultyStep 10 0 1).2 (BD.difficultyStep 10 0 1).1 =
        BD.difficultyStep 10 0 1 ∧
      c7BDState.scrollSpeed ≤ (BD.updateGame c7BDState 0 0).scrollSpeed ∧
      (c7BDState.scrollSpeed ≤ BD.MAX_SPEED →
        (BD.updateGame c7BDState 0 0).scrollSpeed ≤ BD.MAX_SPEED) ∧
      (BD.handleInput c7OverBDState
        (some { btn := Button.Select, action := Action.Press })).scrollSpeed =
          BD.INITIAL_SPEED) := by
  have hb : (1 : ℚ) ≤ BD.MAX_SPEED := by norm_num [BD.MAX_SPEED]
  exact ⟨⟨hb, rfl⟩, c7_difficulty_progression 10 0 1 c7BDState c7OverBDState 0 0 hb rfl⟩

/-- C8: the entity pool is fixed-capacity.  `spawnBird` never grows the
pool (length preserved), activates at most one slot, and a spawn request
arriving when every slot is active is silently dropped (the pool is
returned unchanged); the bird-advance pass preserves the pool length as
well; consequently, across any tick the number of `active = true` slots
can never exceed the capacity `MAX_BIRDS`. -/
theorem c8_pool_capacity (bs : List BD.Bird) (x0 sp a : ℚ) (s : BD.BDState) (r : ℕ)
    (h5 : s.birdState.length = BD.MAX_BIRDS) :
    (BD.spawnList bs x0).length = bs.length ∧
    ((∀ b ∈ bs, b.active = true) → BD.spawnList bs x0 = bs) ∧
    BD.countActive (BD.spawnList bs x0) ≤ BD.countActive bs + 1 ∧
    BD.countActive (BD.spawnList bs x0) ≤ bs.length ∧
    (BD.moveBirds sp bs).1.length = bs.length ∧
    (BD.updateGame s a r).birdState.length = BD.MAX_BIRDS ∧
    BD.countActive ((BD.updateGame s a r).birdState) ≤ BD.MAX_BIRDS := by
  refine ⟨spawnList_length bs x0, spawnList_of_full bs x0, spawnList_countActive bs x0,
    ?_, moveBirds_length sp bs, ?_, ?_⟩
  · calc BD.countActive (BD.spawnList bs x0) ≤ (BD.spawnList bs x0).length :=
          List.countP_le_length _
      _ = bs.length := spawnList_length bs x0
  · rw [bd_updateGame_birdState_length, h5]
  · calc BD.countActive ((BD.updateGame s a r).birdState) ≤
          (BD.updateGame s a r).birdState.length := List.countP_le_length _
      _ = BD.MAX_BIRDS := by rw [bd_updateGame_birdState_length, h5]

/-- Witness for C8 at a full pool (all 5 slots active): the spawn is
dropped, lengths are preserved, and the active count stays at 5. -/
theorem c8_pool_capacity_witness :
    (c8BDState.birdState.length = BD.MAX_BIRDS) ∧
    ((BD.spawnList c8FullPool 7).length = c8FullPool.length ∧
      ((∀ b ∈ c8FullPool, b.active = true) → BD.spawnList c8FullPool 7 = c8FullPool) ∧
      BD.countActive (BD.spawnList c8FullPool 7) ≤ BD.countActive c8FullPool + 1 ∧
      BD.countActive (BD.spawnList c8FullPool 7) ≤ c8FullPool.length ∧
      (BD.moveBirds 1 c8FullPool).1.length = c8FullPool.length ∧
      (BD.updateGame c8BDState 0 0).birdState.length = BD.MAX_BIRDS ∧
      BD.countActive ((BD.updateGame c8BDState 0 0).birdState) ≤ BD.MAX_BIRDS) :=
  ⟨rfl, c8_pool_capacity c8FullPool 7 1 0 c8BDState 0 rfl⟩

end Clockstar
